import Mathlib

/-!
Shallow embedding of the afilia repository-creation core
(src/filesystem/error.rs and src/filesystem/repository.rs).

External collaborators are modelled explicitly:
- the blake3 crate's hash function is an arbitrary function parameter
  (the code only composes it; its cryptographic properties are external);
- the uuid crate's v4 generator is an external randomness source, so the
  freshly drawn uuid is an explicit input, and a Uuid is carried in its
  canonical textual form (the code only ever formats it via Display);
- serde_json's string rendering and parsing are external and mutually
  inverse, so (de)serialization is embedded at the level of the JSON
  document tree the derived Serialize/Deserialize instances produce;
- the SQLite engine (rusqlite) is modelled on the fragment the code
  uses: CREATE TABLE statements, with and without IF NOT EXISTS, over a
  database state that is the list of existing tables, and a syntax check
  that rejects statements with unbalanced parentheses (the defect the
  source's main_catalog statement actually has);
- the filesystem is a World record for the single repository directory
  every operation targets: the marker file's content (if present), the
  database file's content (if present), and two flags saying whether the
  respective file operations fail with an I/O error.

A Rust panic (a discharged unwrap) is modelled as Option.none; a Rust
Result is an Except.  Effects are explicit state passing.
-/

namespace Afilia

/-! ## Error taxonomy (src/filesystem/error.rs) -/

/-- Error kind specific to an application error (enum AppCustomErrorKind). -/
inductive AppCustomErrorKind where
  | RepositoryStructure
  | RepositoryMetadata
  | RepositorySign
  | PhantomCloneError
deriving DecidableEq, Repr

/-- enum InternalError: each variant wraps a lower-level error.  The wrapped
underlying errors come from external crates / std and are carried as their
message strings. -/
inductive InternalError where
  | Io : String → InternalError
  | Parse : String → InternalError
  | Json : String → InternalError
  | SystemTime : String → InternalError
  | Utf8 : String → InternalError
  | Db : String → InternalError
  | Custom : AppCustomErrorKind → InternalError
deriving DecidableEq, Repr

/-- struct AppError: error kind plus contextual message. -/
structure AppError where
  error_kind : InternalError
  msg : String
deriving DecidableEq, Repr

/-- AppError::new_custom. -/
def AppError.new_custom (kind : AppCustomErrorKind) (msg : String) : AppError :=
  { error_kind := InternalError.Custom kind, msg := msg }

/-- AppError::from_error (the From conversions collapse to wrapping the
underlying error, here already an InternalError). -/
def AppError.from_error (err : InternalError) (msg : String) : AppError :=
  { error_kind := err, msg := msg }

/-- impl Clone for AppError: returns the PhantomCloneError sentinel with a
fixed message, ignoring the original. -/
def AppError.clone (_e : AppError) : AppError :=
  AppError.new_custom AppCustomErrorKind.PhantomCloneError "fake clone error"

/-- type AppResult of T. -/
abbrev AppResult (T : Type) := Except AppError T

/-! ## Repository identity (src/filesystem/repository.rs) -/

/-- A v4 uuid, carried in its canonical textual form: the code only ever
uses a Uuid through its Display rendering. -/
abbrev Uuid := String

def SIGN_FILE_NAME : String := ".afilia_repo"

def DB_FILE_NAME : String := "afilia_repo.db"

def REPO_FORMAT_VERSION : String := "1.0"

/-- struct RepositoryID (serde field names: uuid, name, sign). -/
structure RepositoryID where
  uuid : Uuid
  name : String
  sign : String
deriving DecidableEq, Repr

/-- RepositoryID::sign: blake3::hash of the formatted string
uuid ++ ":" ++ name ++ ":" ++ payload.  blake3's hash is the external
parameter blake3hash into an arbitrary digest type H.  (Named signRepo
because the structure already owns the field name sign.) -/
def signRepo {H : Type} (blake3hash : String → H)
    (repo_uuid : Uuid) (name payload : String) : H :=
  blake3hash (repo_uuid ++ ":" ++ name ++ ":" ++ payload)

/-- RepositoryID::new: Uuid::new_v4 is the external randomness source, so
the freshly drawn uuid is an explicit input; toHex is blake3's Hash::to_hex
rendering of the digest. -/
def RepositoryID.new {H : Type} (blake3hash : String → H) (toHex : H → String)
    (freshUuid : Uuid) (name payload : String) : RepositoryID :=
  { uuid := freshUuid
    name := name
    sign := toHex (signRepo blake3hash freshUuid name payload) }

/-! ## JSON documents (serde_json, at the document-tree level) -/

/-- A JSON value, as far as the derived Serialize/Deserialize for
RepositoryID needs it.  serde_json's pretty string rendering and its
parser are the external, mutually inverse maps between this tree and the
marker file's bytes. -/
inductive Json where
  | str : String → Json
  | obj : List (String × Json) → Json

/-- Field lookup in a JSON object body. -/
def jlookup (k : String) : List (String × Json) → Option Json
  | [] => none
  | (k2, v) :: rest => if k2 = k then some v else jlookup k rest

def Json.getStr : Json → Option String
  | Json.str s => some s
  | Json.obj _ => none

/-- The document the derived Serialize instance produces for RepositoryID
(fields in declaration order: uuid, name, sign). -/
def RepositoryID.toJson (r : RepositoryID) : Json :=
  Json.obj [("uuid", Json.str r.uuid), ("name", Json.str r.name), ("sign", Json.str r.sign)]

/-- The derived Deserialize instance for RepositoryID: reads the three
string fields from a JSON object, failing on anything else. -/
def RepositoryID.fromJson (j : Json) : Option RepositoryID :=
  match j with
  | Json.obj fields =>
    match (jlookup "uuid" fields).bind Json.getStr,
          (jlookup "name" fields).bind Json.getStr,
          (jlookup "sign" fields).bind Json.getStr with
    | some u, some n, some s => some { uuid := u, name := n, sign := s }
    | _, _, _ => none
  | Json.str _ => none

/-! ## The filesystem world -/

/-- The database file's content: the list of tables that exist, in
creation order. -/
abbrev DB := List String

/-- The state of the one repository directory every operation targets.
marker and dbfile are the contents of path/.afilia_repo and
path/afilia_repo.db when those files exist; ioFailMarker and ioFailDb
say whether creating/writing the marker file, respectively opening the
database file, fails with an I/O error. -/
structure World where
  marker : Option Json
  dbfile : Option DB
  ioFailMarker : Bool
  ioFailDb : Bool

/-- RepositoryID::serialize: File::create(path/.afilia_repo).unwrap(), then
serde_json::to_string_pretty(self).unwrap() (infallible for this derive),
then writeln.unwrap().  The unwraps turn any I/O failure into a panic
(none); on success the marker file is written unconditionally,
overwriting any existing one.  The path argument names the directory the
World models. -/
def RepositoryID.serialize (r : RepositoryID) (_path : String) (w : World) :
    Option World :=
  if w.ioFailMarker then none
  else some { w with marker := some r.toJson }

/-! ## The SQLite fragment (rusqlite, external engine) -/

/-- Parenthesis balance over the characters of a statement; SQLite rejects
an unbalanced statement with a syntax error before executing anything. -/
def parenCheck : List Char → Nat → Bool
  | [], d => d == 0
  | c :: cs, d =>
    if c = '(' then parenCheck cs (d + 1)
    else if c = ')' then
      match d with
      | 0 => false
      | d' + 1 => parenCheck cs d'
    else parenCheck cs d

def parenBalanced (s : String) : Bool :=
  parenCheck s.toList 0

/-- Split a statement into whitespace-separated tokens. -/
def splitWs : List Char → List Char → List String
  | [], acc => if acc.isEmpty then [] else [String.mk acc.reverse]
  | c :: cs, acc =>
    if c = ' ' ∨ c = '\n' then
      if acc.isEmpty then splitWs cs [] else String.mk acc.reverse :: splitWs cs []
    else splitWs cs (c :: acc)

def tokens (s : String) : List String :=
  splitWs s.toList []

/-- Recognize a CREATE TABLE statement: returns (guarded by IF NOT EXISTS,
table name). -/
def parseCreateTable (sql : String) : Option (Bool × String) :=
  match tokens sql with
  | "CREATE" :: "TABLE" :: "IF" :: "NOT" :: "EXISTS" :: nm :: _ => some (true, nm)
  | "CREATE" :: "TABLE" :: nm :: _ => some (false, nm)
  | _ => none

/-- Modelled behaviour of the SQLite engine on the statement fragment the
code uses: a syntactically invalid statement (unbalanced parentheses, as in
the source's main_catalog statement) errors; CREATE TABLE on an existing
table errors unless guarded by IF NOT EXISTS; otherwise the table is
created.  Returns the rusqlite row count together with the new database
state. -/
def sqliteExecute (sql : String) (db : DB) : Except String Nat × DB :=
  if parenBalanced sql then
    match parseCreateTable sql with
    | none => (Except.error "unsupported statement", db)
    | some (guarded, nm) =>
      if db.contains nm then
        if guarded then (Except.ok 0, db)
        else (Except.error ("table " ++ nm ++ " already exists"), db)
      else (Except.ok 0, db ++ [nm])
  else (Except.error "incomplete input", db)

/-! ## Catalog store (struct RepositoryDB) -/

/-- struct RepositoryDB: a name and the connection rusqlite returned, None
when the open failed (Connection::open(..).ok() swallows the error).  The
connection is the live handle onto the database file's state. -/
structure RepositoryDB where
  name : String
  conn : Option DB
deriving DecidableEq, Repr

/-- RepositoryDB::new: opens (creating if absent) path/afilia_repo.db;
a failed open leaves conn = none and the World unchanged. -/
def RepositoryDB.new (name : String) (w : World) : RepositoryDB × World :=
  if w.ioFailDb then ({ name := name, conn := none }, w)
  else
    match w.dbfile with
    | some db => ({ name := name, conn := some db }, w)
    | none => ({ name := name, conn := some [] }, { w with dbfile := some [] })

/-- RepositoryDB::execute: self.conn.as_ref().unwrap() panics (none) when
the connection is absent; otherwise runs the statement on the connection
and wraps an engine error via AppError::from_error(err, ""). -/
def RepositoryDB.execute (rdb : RepositoryDB) (sql : String) :
    Option (AppResult Nat × RepositoryDB) :=
  match rdb.conn with
  | none => none
  | some db =>
    match sqliteExecute sql db with
    | (Except.ok n, db2) => some (Except.ok n, { rdb with conn := some db2 })
    | (Except.error e, db2) =>
      some (Except.error (AppError.from_error (InternalError.Db e) ""), { rdb with conn := some db2 })

/-- The literal sql_script array of RepositoryDB::create, byte for byte
(the Rust string literals keep their embedded newlines and the 17-space
indentation of continuation lines). -/
def sqlScript : List String :=
  [ "CREATE TABLE storage_unit (id INTEGER PRIMARY KEY, path VARCHAR NOT NULL, file_count INTEGER DEFAULT 0)",
    "CREATE TABLE IF NOT EXISTS main_catalog (\n                 id CHAR(36) PRIMARY KEY,\n                 hash BLOB NOT NULL,\n                 storage_path VARCHAR(\n                 created TIMESTAMP DEFAULT CURRENT_TIMESTAMP NOT NULL,\n                 modified TIMESTAMP DEFAULT CURRENT_TIMESTAMP NOT NULL)",
    "CREATE TABLE storage_unit (\n                 id INTEGER PRIMARY KEY,\n                 path VARCHAR NOT NULL,\n                 file_count INTEGER DEFAULT 0)",
    "CREATE TABLE IF NOT EXISTS queue (\n                 id CHAR(36) PRIMARY KEY,\n                 hash BLOB NOT NULL,\n                 created TIMESTAMP DEFAULT CURRENT_TIMESTAMP NOT NULL,\n                 modified TIMESTAMP DEFAULT CURRENT_TIMESTAMP NOT NULL)",
    "CREATE TABLE IF NOT EXISTS parameter (\n                 key VARCHAR(32) PRIMARY KEY,\n                 value VARCHAR(256),\n                 created TIMESTAMP DEFAULT CURRENT_TIMESTAMP NOT NULL,\n                 modified TIMESTAMP DEFAULT CURRENT_TIMESTAMP NOT NULL)" ]

/-- The for loop of RepositoryDB::create: each statement's result is
discarded (the source writes self.execute(sql, []); and ignores the
value); only a panic (absent connection) escapes. -/
def runScript (rdb : RepositoryDB) : List String → Option RepositoryDB
  | [] => some rdb
  | sql :: rest =>
    match rdb.execute sql with
    | none => none
    | some (_r, rdb2) => runScript rdb2 rest

/-- RepositoryDB::create: runs the script, discarding every statement
result, and returns Ok(()). -/
def RepositoryDB.create (rdb : RepositoryDB) : Option (AppResult Unit × RepositoryDB) :=
  (runScript rdb sqlScript).map (fun r => (Except.ok (), r))

/-! ## Repository aggregate -/

/-- struct Repository. -/
structure Repository where
  id : RepositoryID
  database : RepositoryDB
  path : String

/-- Repository::create, in the source's effect order: build the identity
(drawing freshUuid from the external generator), open the database
(creating the database file), write the identity marker, run the schema
script.  A none result is a panic of one of the unwraps.  The returned
World has the database file synced with the connection the returned
aggregate holds. -/
def Repository.create {H : Type} (blake3hash : String → H) (toHex : H → String)
    (freshUuid : Uuid) (path name payload : String) (w : World) :
    Option (Repository × World) :=
  let rid := RepositoryID.new blake3hash toHex freshUuid name payload
  let p := RepositoryDB.new "repo1" w
  match rid.serialize path p.2 with
  | none => none
  | some w2 =>
    match p.1.create with
    | none => none
    | some (_r, rdb2) =>
      some ({ id := rid, database := rdb2, path := path },
            { w2 with dbfile := match rdb2.conn with
                                | some db => some db
                                | none => w2.dbfile })

/-! ## Concrete fixtures used by the theorems below -/

/-- A freshly opened handle onto an empty database. -/
def rdb0 : RepositoryDB := { name := "repo1", conn := some [] }

/-- The handle's state after running the schema script from empty:
storage_unit, queue and parameter exist; main_catalog does not. -/
def rdb1 : RepositoryDB := { name := "repo1", conn := some ["storage_unit", "queue", "parameter"] }

/-- An empty repository directory with working I/O. -/
def w0 : World := { marker := none, dbfile := none, ioFailMarker := false, ioFailDb := false }

/-- An empty directory in which creating the marker file fails. -/
def wFail : World := { marker := none, dbfile := none, ioFailMarker := true, ioFailDb := false }

/-- A directory that already holds a marker file. -/
def wPrev : World :=
  { marker := some (Json.str "previous marker"), dbfile := none
    ioFailMarker := false, ioFailDb := false }

/-- The malformed main_catalog statement (second entry of the script). -/
def mainCatalogSql : String := sqlScript.get! 1

/-- The duplicate, unguarded storage_unit statement (third entry). -/
def dupStorageUnitSql : String := sqlScript.get! 2

/-- The identity Repository::create builds for uuid u1, name myrepo,
payload secret when the hash and its hex rendering are both instantiated
with the identity function on strings. -/
def ridX : RepositoryID := { uuid := "u1", name := "myrepo", sign := "u1:myrepo:secret" }

/-- The aggregate that concrete creation run returns. -/
def repoX : Repository := { id := ridX, database := rdb1, path := "/tmp/repoX" }

/-- The directory state that concrete creation run leaves behind. -/
def wX : World :=
  { marker := some ridX.toJson, dbfile := some ["storage_unit", "queue", "parameter"]
    ioFailMarker := false, ioFailDb := false }

/-! ## Theorems -/

set_option maxRecDepth 100000

/-- C1: for every id, name and payload, RepositoryID::sign is the hash of
the string id ++ ":" ++ name ++ ":" ++ payload; signing the same triple
twice yields identical digests; and the identity RepositoryID::new builds
carries exactly the hex rendering of that digest for its freshly drawn id,
for any hash function and hex rendering (blake3 being external). -/
theorem C1_signature_spec {H : Type} (blake3hash : String → H) (toHex : H → String)
    (id : Uuid) (name payload : String) :
    signRepo blake3hash id name payload = blake3hash (id ++ ":" ++ name ++ ":" ++ payload)
    ∧ signRepo blake3hash id name payload = signRepo blake3hash id name payload
    ∧ (RepositoryID.new blake3hash toHex id name payload).sign
        = toHex (signRepo blake3hash id name payload)
    ∧ (RepositoryID.new blake3hash toHex id name payload).uuid = id :=
  ⟨rfl, rfl, rfl, rfl⟩

/-- C2: Repository::create is not all-or-nothing.  Concretely, in a fresh
writable directory the malformed main_catalog statement fails during
provisioning, yet create still returns a repository and leaves the marker
file and a partially provisioned database behind; and when the marker
write fails, create panics (none) instead of returning an error, after the
database file has already been created by the preceding open. -/
theorem C2_create_unconditional :
    (({ name := "repo1", conn := some ["storage_unit"] } : RepositoryDB).execute mainCatalogSql
      = some (Except.error (AppError.from_error (InternalError.Db "incomplete input") ""),
              { name := "repo1", conn := some ["storage_unit"] }))
    ∧ Repository.create (fun s => s) (fun s => s) "u1" "/tmp/repoX" "myrepo" "secret" w0
        = some (repoX, wX)
    ∧ wX.marker.isSome = true
    ∧ Repository.create (fun s => s) (fun s => s) "u1" "/tmp/repoX" "myrepo" "secret" wFail
        = none
    ∧ (RepositoryDB.new "repo1" wFail).2.dbfile = some [] :=
  ⟨rfl, rfl, rfl, rfl, rfl⟩

/-- C3: schema provisioning is not idempotent in the claimed sense: while
calling it twice indeed returns no error (every statement failure is
discarded), the database afterwards does not contain all four tables —
main_catalog is never created because its CREATE TABLE statement is
syntactically malformed. -/
theorem C3_provision_missing_table :
    rdb0.create = some (Except.ok (), rdb1)
    ∧ rdb1.create = some (Except.ok (), rdb1)
    ∧ rdb1.conn = some ["storage_unit", "queue", "parameter"]
    ∧ rdb1.conn.map (fun db => db.contains "main_catalog") = some false :=
  ⟨rfl, rfl, rfl, rfl⟩

/-- C4: statement failures are not surfaced: on an empty database the
malformed main_catalog statement returns a database error, and re-creating
storage_unit unguarded returns a further error, yet provisioning discards
every statement result and returns Ok. -/
theorem C4_statement_error_discarded :
    rdb0.execute mainCatalogSql
      = some (Except.error (AppError.from_error (InternalError.Db "incomplete input") ""), rdb0)
    ∧ (({ name := "repo1", conn := some ["storage_unit"] } : RepositoryDB).execute dupStorageUnitSql
      = some (Except.error
                (AppError.from_error (InternalError.Db "table storage_unit already exists") ""),
              { name := "repo1", conn := some ["storage_unit"] }))
    ∧ rdb0.create = some (Except.ok (), rdb1) :=
  ⟨rfl, rfl, rfl⟩

/-- C5: the success postcondition fails: creating a repository in a fresh
writable directory returns successfully with marker and database file both
present, but the database contains only storage_unit, queue and parameter
— main_catalog is missing. -/
theorem C5_success_postcondition_fails :
    Repository.create (fun s => s) (fun s => s) "u1" "/tmp/repoX" "myrepo" "secret" w0
      = some (repoX, wX)
    ∧ wX.marker.isSome = true
    ∧ wX.dbfile.isSome = true
    ∧ wX.dbfile.map (fun db => db.contains "main_catalog") = some false :=
  ⟨rfl, rfl, rfl, rfl⟩

/-- C6: round-trip: serializing any identity writes the marker document
with fields uuid, name, sign, and parsing that document back yields the
same id, name and signature (serde_json's string rendering and parser
being external mutual inverses between the document tree and the file's
bytes). -/
theorem C6_roundtrip (r : RepositoryID) (w : World) (p : String)
    (h : w.ioFailMarker = false) :
    ∃ w2, r.serialize p w = some w2 ∧ w2.marker = some r.toJson
      ∧ RepositoryID.fromJson r.toJson = some r := by
  refine ⟨{ w with marker := some r.toJson }, ?_, rfl, ?_⟩
  · simp [RepositoryID.serialize, h]
  · cases r
    rfl

/-- C6 witness: the round-trip theorem applied to a concrete identity in a
concrete writable directory. -/
theorem C6_roundtrip_witness :
    ∃ w2, ridX.serialize "/tmp/repoX" w0 = some w2 ∧ w2.marker = some ridX.toJson
      ∧ RepositoryID.fromJson ridX.toJson = some ridX :=
  C6_roundtrip ridX w0 "/tmp/repoX" rfl

/-- C7: serialize does not return an I/O error to the caller: when the
marker file cannot be created it panics (the unwrap), and when a marker
already exists it silently overwrites it with no overwrite decision. -/
theorem C7_serialize_panics_and_overwrites :
    ridX.serialize "/tmp/repoX" wFail = none
    ∧ ridX.serialize "/tmp/repoX" wPrev = some { wPrev with marker := some ridX.toJson } :=
  ⟨rfl, rfl⟩

/-- C8 counterexample: cloning the RepositoryStructure error with message
boom does not preserve the kind and the message — the clone is the
PhantomCloneError sentinel with the fixed message fake clone error. -/
theorem C8_counterexample :
    ¬ ((AppError.new_custom AppCustomErrorKind.RepositoryStructure "boom").clone.error_kind
         = InternalError.Custom AppCustomErrorKind.RepositoryStructure
       ∧ (AppError.new_custom AppCustomErrorKind.RepositoryStructure "boom").clone.msg
         = "boom") := by
  decide

/-- C8 amended: cloning an AppError loses the underlying error entirely:
for every AppError the clone is the PhantomCloneError sentinel with the
fixed message fake clone error, regardless of the original kind and
message. -/
theorem C8_clone_lossy (e : AppError) :
    e.clone = AppError.new_custom AppCustomErrorKind.PhantomCloneError "fake clone error"
    ∧ e.clone.msg = "fake clone error" :=
  ⟨rfl, rfl⟩

/-- C9: the id of the identity RepositoryID::new returns is exactly the
uuid freshly drawn from the external v4 generator, unchanged; hence two
calls whose generator draws differ return identities with different ids,
for any names and payloads. -/
theorem C9_fresh_id {H : Type} (blake3hash : String → H) (toHex : H → String)
    (u1 u2 : Uuid) (n1 p1 n2 p2 : String) (h : u1 ≠ u2) :
    (RepositoryID.new blake3hash toHex u1 n1 p1).uuid = u1
    ∧ (RepositoryID.new blake3hash toHex u2 n2 p2).uuid = u2
    ∧ (RepositoryID.new blake3hash toHex u1 n1 p1).uuid
        ≠ (RepositoryID.new blake3hash toHex u2 n2 p2).uuid :=
  ⟨rfl, rfl, h⟩

/-- C9 witness: two concrete distinct generator draws give identities with
distinct ids. -/
theorem C9_fresh_id_witness :
    (RepositoryID.new (fun s => s) (fun s => s) "u1" "a" "b").uuid = "u1"
    ∧ (RepositoryID.new (fun s => s) (fun s => s) "u2" "a" "b").uuid = "u2"
    ∧ (RepositoryID.new (fun s => s) (fun s => s) "u1" "a" "b").uuid
        ≠ (RepositoryID.new (fun s => s) (fun s => s) "u2" "a" "b").uuid :=
  C9_fresh_id (fun s => s) (fun s => s) "u1" "u2" "a" "b" "a" "b" (by decide)

/-- C10: RepositoryDB::execute panics exactly when the connection is
absent: for every handle and statement, execute is a panic (none) if and
only if conn is none, so the database-error branch is reachable only when
a connection exists. -/
theorem C10_execute_panic_iff_no_conn (rdb : RepositoryDB) (sql : String) :
    rdb.execute sql = none ↔ rdb.conn = none := by
  rcases rdb with ⟨nm, conn⟩
  cases conn with
  | none => simp [RepositoryDB.execute]
  | some db =>
    constructor
    · intro hc
      exfalso
      rcases hq : sqliteExecute sql db with ⟨r, db2⟩
      cases r <;> simp [RepositoryDB.execute, hq] at hc
    · intro hc
      exact Option.noConfusion hc

end Afilia
